import Mathlib

/-!
Shallow embedding of the `vite-ts-monorepo-rfc` repository.

The repository's executable content is two Vite configuration modules:

* `src/with-tsconfig-paths/packages/lib/vite.config.ts` — exports
  `defineConfig({ build: { lib: { entry: 'src/index.ts', fileName: 'lib',
  formats: ['es'] } } })`.
* `src/with-tsconfig-paths/packages/app/vite.config.ts` — exports
  `defineConfig({ resolve: { alias: { '@test/lib':
  fileURLToPath(new URL('../lib/src', import.meta.url)) } } })`.

The app module calls two platform functions (`new URL` with a base, and
`node:url`'s `fileURLToPath`); these are modelled below from their
documented semantics (WHATWG URL resolution with dot-segment removal,
and POSIX file-URL-to-path conversion).  Percent-decoding, Windows drive
letters and query/fragment contents are outside the fragment the
configuration exercises and are not modelled beyond stripping
query/fragment from the path.
-/

/-- A parsed (non-opaque) URL: scheme, host, and slash-separated path
segments.  `new URL` with an opaque-path or unparsable base throws, which
the parser below models by returning `none`. -/
structure Url where
  scheme : String
  host : String
  segments : List String
deriving DecidableEq, Repr

/-- Single-dot path segment in the sense of the WHATWG URL standard
(including percent-encoded spellings). -/
def isSingleDot (s : String) : Bool :=
  s == "." || s == "%2e" || s == "%2E"

/-- Double-dot path segment in the sense of the WHATWG URL standard
(including percent-encoded spellings). -/
def isDoubleDot (s : String) : Bool :=
  s == ".." || s == ".%2e" || s == ".%2E" || s == "%2e." || s == "%2E." ||
  s == "%2e%2e" || s == "%2e%2E" || s == "%2E%2e" || s == "%2E%2E"

/-- One step of WHATWG path processing: a double-dot segment shortens the
path, a single-dot segment is dropped, any other segment is appended. -/
def shorten (acc : List String) (seg : String) : List String :=
  if isDoubleDot seg then acc.dropLast
  else if isSingleDot seg then acc
  else acc ++ [seg]

/-- Remove dot segments from a path, as the WHATWG URL parser does while
reading a path. -/
def normalizeSegs (l : List String) : List String :=
  l.foldl shorten []

/-- Split a character list at every `/`. -/
def splitSlash : List Char → List (List Char)
  | [] => [[]]
  | c :: cs =>
    match splitSlash cs with
    | [] => [[c]]
    | h :: t => if c = '/' then [] :: h :: t else (c :: h) :: t

/-- Valid URL scheme: a letter followed by letters, digits, `+`, `-`, `.`. -/
def schemeOkChars : List Char → Bool
  | [] => false
  | c :: cs => c.isAlpha && cs.all (fun d => d.isAlphanum || d == '+' || d == '-' || d == '.')

/-- Parse an absolute URL of the form `scheme://host/seg1/seg2/...`,
stripping any query or fragment and removing dot segments, as the WHATWG
basic URL parser does.  Inputs without a valid scheme or without an
authority (opaque paths) yield `none`, modelling the `TypeError` that
`new URL` raises on an unparsable or cannot-be-a-base base URL. -/
def parseUrlChars (cs : List Char) : Option Url :=
  if schemeOkChars (cs.takeWhile (fun c => c != ':')) then
    match cs.dropWhile (fun c => c != ':') with
    | ':' :: '/' :: '/' :: rest2 =>
      match splitSlash (rest2.takeWhile (fun c => c != '?' && c != '#')) with
      | [] => none
      | hostChars :: rawSegs =>
        some { scheme := String.mk ((cs.takeWhile (fun c => c != ':')).map Char.toLower),
               host := String.mk hostChars,
               segments := normalizeSegs (rawSegs.map String.mk) }
    | _ => none
  else none

/-- Parse a URL string; see `parseUrlChars`. -/
def parseUrl (s : String) : Option Url :=
  parseUrlChars s.toList

/-- Resolve a relative path reference (given as its segments) against a
base URL: drop the base path's last segment, then process the reference's
segments with dot-segment removal.  This models `new URL(rel, base)` for
a relative `rel` with no authority, query or fragment. -/
def resolveRelative (base : Url) (rel : List String) : Url :=
  { base with segments := List.foldl shorten base.segments.dropLast rel }

/-- Errors the app configuration module can raise: `invalidURL` models
the `TypeError` from `new URL` on an unparsable base;
`schemeNotFile` and `invalidHost` model the errors `fileURLToPath`
raises on a non-`file:` URL or a non-local host. -/
inductive EvalError where
  | invalidURL
  | schemeNotFile
  | invalidHost
deriving DecidableEq, Repr

/-- Join path segments into an absolute POSIX path. -/
def pathOfSegments (l : List String) : String :=
  "/" ++ String.intercalate "/" l

/-- Model of `node:url`'s `fileURLToPath` on POSIX: requires the `file:`
scheme and an empty or `localhost` host, and returns the URL's path. -/
def fileURLToPath (u : Url) : Except EvalError String :=
  if u.scheme = "file" then
    if u.host = "" ∨ u.host = "localhost" then .ok (pathOfSegments u.segments)
    else .error .invalidHost
  else .error .schemeNotFile

/-- The segments of the relative reference `../lib/src` used by the app
configuration. -/
def relLibSrc : List String := ["..", "lib", "src"]

/-- The library build options object from
`packages/lib/vite.config.ts` (`build.lib`). -/
structure LibOptions where
  entry : String
  fileName : String
  formats : List String
deriving DecidableEq, Repr

/-- The `build` section of a Vite user config, as used in this repository. -/
structure BuildOptions where
  lib : Option LibOptions
deriving DecidableEq, Repr

/-- The `resolve` section of a Vite user config, as used in this
repository: an alias map from import-specifier keys to paths. -/
structure ResolveOptions where
  aliases : List (String × String)
deriving DecidableEq, Repr

/-- A Vite user config restricted to the sections this repository sets;
`none` means the section is absent from the exported object literal. -/
structure UserConfig where
  resolve : Option ResolveOptions
  build : Option BuildOptions
deriving DecidableEq, Repr

/-- Vite's `defineConfig` helper: the identity on the config object. -/
def defineConfig (c : UserConfig) : UserConfig := c

/-- The environment an ES module evaluation observes: its own
`import.meta.url`, and the ambient rest of the repository (file name /
file contents pairs) which neither configuration module reads. -/
structure ModuleEnv where
  url : String
  ambient : List (String × String)

/-- The record exported by `packages/lib/vite.config.ts`, translated
field by field from the source. -/
def libViteConfig : UserConfig :=
  defineConfig
    { resolve := none,
      build := some { lib := some { entry := "src/index.ts", fileName := "lib", formats := ["es"] } } }

/-- Evaluation of the library configuration module: it reads nothing from
its environment and cannot fail. -/
def libConfigEval (_e : ModuleEnv) : Except EvalError UserConfig :=
  .ok libViteConfig

/-- The alias value computed by `packages/app/vite.config.ts`:
`fileURLToPath(new URL('../lib/src', import.meta.url))`, as a function of
the module's URL string. -/
def appAliasValue (s : String) : Except EvalError String :=
  match parseUrl s with
  | none => .error .invalidURL
  | some u => fileURLToPath (resolveRelative u relLibSrc)

/-- Evaluation of the app configuration module: builds the exported
record from `import.meta.url`; any error from `new URL` or
`fileURLToPath` propagates. -/
def appConfigEval (e : ModuleEnv) : Except EvalError UserConfig :=
  match appAliasValue e.url with
  | .error err => .error err
  | .ok p => .ok (defineConfig { resolve := some { aliases := [("@test/lib", p)] }, build := none })

/-- A path segment that is neither a single-dot nor a double-dot segment;
the WHATWG parser leaves only such segments in a parsed path. -/
def goodSeg (s : String) : Prop :=
  isDoubleDot s = false ∧ isSingleDot s = false

/-- Processing a double-dot segment drops the last segment of the
accumulated path. -/
theorem shorten_dotdot (acc : List String) : shorten acc ".." = acc.dropLast := by
  unfold shorten
  rw [show isDoubleDot ".." = true from rfl]
  simp

/-- Processing a non-dot segment appends it to the accumulated path. -/
theorem shorten_keep (acc : List String) (s : String)
    (h1 : isDoubleDot s = false) (h2 : isSingleDot s = false) :
    shorten acc s = acc ++ [s] := by
  unfold shorten
  rw [h1, h2]
  simp

/-- Resolving `../lib/src` against any base URL replaces the base path's
last two segments (file name and containing directory) with `lib/src`. -/
theorem resolveRelative_relLibSrc (u : Url) :
    resolveRelative u relLibSrc =
      { u with segments := u.segments.dropLast.dropLast ++ ["lib", "src"] } := by
  unfold resolveRelative relLibSrc
  rw [show (List.foldl shorten u.segments.dropLast ["..", "lib", "src"] =
      shorten (shorten (shorten u.segments.dropLast "..") "lib") "src") from rfl]
  rw [shorten_dotdot, shorten_keep _ "lib" rfl rfl, shorten_keep _ "src" rfl rfl,
    List.append_assoc]
  rfl

/-- Every segment surviving WHATWG dot-segment processing is a non-dot
segment, provided the accumulator held only non-dot segments. -/
theorem foldl_shorten_good (l : List String) :
    ∀ acc : List String, (∀ s ∈ acc, goodSeg s) →
      ∀ s ∈ List.foldl shorten acc l, goodSeg s := by
  induction l with
  | nil => exact fun acc hacc s hs => hacc s hs
  | cons x xs ih =>
    intro acc hacc
    rw [List.foldl_cons]
    apply ih
    intro s hs
    unfold shorten at hs
    split at hs
    · exact hacc s (List.Sublist.subset (List.dropLast_sublist _) hs)
    · split at hs
      · exact hacc s hs
      · rcases List.mem_append.1 hs with h | h
        · exact hacc s h
        · rename_i hdd hsd
          rcases List.mem_singleton.1 h with rfl
          simp only [Bool.not_eq_true] at hdd hsd
          exact ⟨hdd, hsd⟩

/-- Normalized paths contain only non-dot segments. -/
theorem normalizeSegs_good (l : List String) :
    ∀ s ∈ normalizeSegs l, goodSeg s :=
  foldl_shorten_good l [] (by simp)

/-- The path of any successfully parsed URL is a normalized path. -/
theorem parseUrl_segments_normalized (s : String) (u : Url)
    (hp : parseUrl s = some u) :
    ∃ raw : List String, u.segments = normalizeSegs raw := by
  unfold parseUrl parseUrlChars at hp
  split at hp
  · split at hp
    · split at hp
      · exact Option.noConfusion hp
      · injection hp with h
        exact ⟨_, congrArg Url.segments h.symm⟩
    · exact Option.noConfusion hp
  · exact Option.noConfusion hp

/-- A non-dot segment is not the literal `".."`. -/
theorem goodSeg_ne_dotdot (s : String) (h : goodSeg s) : s ≠ ".." := by
  intro e
  subst e
  unfold goodSeg at h
  exact absurd h.1 (by decide)

/-- Membership in `dropLast` implies membership in the list. -/
theorem mem_of_mem_dropLast {s : String} {l : List String}
    (h : s ∈ l.dropLast) : s ∈ l :=
  List.Sublist.subset (List.dropLast_sublist _) h

/-- `fileURLToPath` succeeds on a `file:` URL with a local host and
returns the URL's path. -/
theorem fileURLToPath_ok (u : Url) (h1 : u.scheme = "file")
    (h2 : u.host = "" ∨ u.host = "localhost") :
    fileURLToPath u = .ok (pathOfSegments u.segments) := by
  unfold fileURLToPath
  rw [if_pos h1, if_pos h2]

/-- Unfolding of `appAliasValue` on a successfully parsed URL. -/
theorem appAliasValue_of_parse (s : String) (u : Url)
    (hp : parseUrl s = some u) :
    appAliasValue s = fileURLToPath (resolveRelative u relLibSrc) := by
  unfold appAliasValue
  rw [hp]

/-- Unfolding of `appConfigEval` when the alias value computes. -/
theorem appConfigEval_ok (e : ModuleEnv) (p : String)
    (h : appAliasValue e.url = .ok p) :
    appConfigEval e =
      .ok { resolve := some { aliases := [("@test/lib", p)] }, build := none } := by
  unfold appConfigEval
  rw [h]
  rfl

/-- C1: under a valid file URL for the app module's location, the app
configuration is exactly one alias mapping: the key `"@test/lib"` bound
to the absolute filesystem path obtained by resolving `../lib/src`
against the configuration file's own location, with no `build` section
and no further aliases. -/
theorem c1_app_config_contents (e : ModuleEnv) (u : Url)
    (hp : parseUrl e.url = some u) (hs : u.scheme = "file")
    (hh : u.host = "" ∨ u.host = "localhost") :
    ∃ p : String,
      fileURLToPath (resolveRelative u relLibSrc) = .ok p ∧
      (∃ t, p = "/" ++ t) ∧
      appConfigEval e =
        .ok { resolve := some { aliases := [("@test/lib", p)] }, build := none } := by
  refine ⟨pathOfSegments (resolveRelative u relLibSrc).segments,
    fileURLToPath_ok _ hs hh, ⟨String.intercalate "/" (resolveRelative u relLibSrc).segments, rfl⟩, ?_⟩
  exact appConfigEval_ok e _ ((appAliasValue_of_parse e.url u hp).trans (fileURLToPath_ok _ hs hh))

/-- C1 witness: the theorem instantiated at a concrete module location. -/
theorem c1_witness :
    ∃ p : String,
      fileURLToPath (resolveRelative
        (Url.mk "file" "" ["repo", "packages", "app", "vite.config.ts"]) relLibSrc) = .ok p ∧
      (∃ t, p = "/" ++ t) ∧
      appConfigEval ⟨"file:///repo/packages/app/vite.config.ts", []⟩ =
        .ok { resolve := some { aliases := [("@test/lib", p)] }, build := none } :=
  c1_app_config_contents ⟨"file:///repo/packages/app/vite.config.ts", []⟩
    (Url.mk "file" "" ["repo", "packages", "app", "vite.config.ts"])
    (by decide) rfl (Or.inl rfl)

/-- C2: the library configuration module always evaluates to a record
whose only contents are a `build.lib` descriptor with entry
`"src/index.ts"`, output file base name `"lib"` and format list
`["es"]`; no resolve section is present. -/
theorem c2_lib_config_contents :
    ∀ e : ModuleEnv,
      libConfigEval e =
        .ok { resolve := none,
              build := some { lib := some { entry := "src/index.ts", fileName := "lib", formats := ["es"] } } } :=
  fun _ => rfl

/-- C3 counterexample: the alias value is not a fixed string independent
of the configuration file's location — evaluating the app module at two
different locations yields two different alias values. -/
theorem c3_counterexample :
    appAliasValue "file:///alpha/packages/app/vite.config.ts" =
      .ok "/alpha/packages/lib/src" ∧
    appAliasValue "file:///beta/packages/app/vite.config.ts" =
      .ok "/beta/packages/lib/src" ∧
    ("/alpha/packages/lib/src" : String) ≠ "/beta/packages/lib/src" :=
  ⟨rfl, rfl, by decide⟩

/-- C3 (amended): the library configuration is fixed static data, and
the app alias value is static relative to everything except the module's
own location: evaluation is a deterministic pure function of the module
URL, but its result does vary with that URL. -/
theorem c3_alias_function_of_location :
    (∀ e1 e2 : ModuleEnv, libConfigEval e1 = libConfigEval e2) ∧
    (∀ e1 e2 : ModuleEnv, e1.url = e2.url → appConfigEval e1 = appConfigEval e2) :=
  ⟨fun _ _ => rfl, fun e1 e2 h => by unfold appConfigEval; rw [h]⟩

/-- C3 witness: same module URL with different ambient repository
contents gives the same evaluation result. -/
theorem c3_witness :
    appConfigEval ⟨"file:///alpha/packages/app/vite.config.ts", []⟩ =
      appConfigEval ⟨"file:///alpha/packages/app/vite.config.ts",
        [("packages/lib/vite.config.ts", "changed")]⟩ :=
  c3_alias_function_of_location.2 _ _ rfl

/-- C4: evaluation of the library module always succeeds with the
literal record of §6, and evaluation of the app module succeeds with the
literal alias record whenever the module's own URL is a valid file URL;
no other failure arises from the repository's own logic. -/
theorem c4_eval_succeeds (e : ModuleEnv) :
    libConfigEval e = .ok libViteConfig ∧
    (∀ u : Url, parseUrl e.url = some u → u.scheme = "file" →
      (u.host = "" ∨ u.host = "localhost") →
      ∃ c : UserConfig, appConfigEval e = .ok c ∧
        c.resolve = some { aliases :=
          [("@test/lib", pathOfSegments (resolveRelative u relLibSrc).segments)] } ∧
        c.build = none) := by
  refine ⟨rfl, fun u hp hs hh => ?_⟩
  exact ⟨_, appConfigEval_ok e _ ((appAliasValue_of_parse e.url u hp).trans (fileURLToPath_ok _ hs hh)),
    rfl, rfl⟩

/-- C4 witness: the theorem instantiated at a concrete module location. -/
theorem c4_witness :
    libConfigEval ⟨"file:///repo/packages/app/vite.config.ts", []⟩ = .ok libViteConfig ∧
    ∃ c : UserConfig,
      appConfigEval ⟨"file:///repo/packages/app/vite.config.ts", []⟩ = .ok c ∧
      c.resolve = some { aliases :=
        [("@test/lib", pathOfSegments (resolveRelative
          (Url.mk "file" "" ["repo", "packages", "app", "vite.config.ts"]) relLibSrc).segments)] } ∧
      c.build = none :=
  ⟨(c4_eval_succeeds ⟨"file:///repo/packages/app/vite.config.ts", []⟩).1,
   (c4_eval_succeeds ⟨"file:///repo/packages/app/vite.config.ts", []⟩).2
     (Url.mk "file" "" ["repo", "packages", "app", "vite.config.ts"])
     (by decide) rfl (Or.inl rfl)⟩

/-- C5: both configuration records are pure values: evaluating either
module any number of times gives the same record (read-once loading is
safe), the library record is one fixed constant, and each module's
record is unaffected by the ambient repository contents — in particular
by the other configuration file — so neither record refers to or depends
on the other. -/
theorem c5_records_independent :
    (∀ e1 e2 : ModuleEnv, libConfigEval e1 = libConfigEval e2) ∧
    (∀ (u : String) (a1 a2 : List (String × String)),
      appConfigEval ⟨u, a1⟩ = appConfigEval ⟨u, a2⟩) :=
  ⟨fun _ _ => rfl, fun _ _ _ => rfl⟩

/-- C7: evaluation is deterministic and self-contained — the library
module reads no input at all (its result is the same in every
environment), and the app module's result factors through its own module
URL alone. -/
theorem c7_deterministic_self_contained :
    (∀ e1 e2 : ModuleEnv, libConfigEval e1 = libConfigEval e2) ∧
    (∃ f : String → Except EvalError UserConfig,
      ∀ e : ModuleEnv, appConfigEval e = f e.url) :=
  ⟨fun _ _ => rfl, ⟨fun u => appConfigEval ⟨u, []⟩, fun _ => rfl⟩⟩

/-- C8: for every valid file URL taken as the app module's location, the
computed alias value is a fully normalized absolute path: the `..` of
`../lib/src` is resolved away, the result is the path of the `lib/src`
directory sibling to the app package's directory (the parent directory
of the config file with its last component replaced by `lib/src`), and
no `..` segment remains in it. -/
theorem c8_alias_normalized (s : String) (u : Url)
    (hp : parseUrl s = some u) (hs : u.scheme = "file")
    (hh : u.host = "" ∨ u.host = "localhost") :
    appAliasValue s =
      .ok (pathOfSegments (u.segments.dropLast.dropLast ++ ["lib", "src"])) ∧
    (∀ seg ∈ u.segments.dropLast.dropLast ++ ["lib", "src"], seg ≠ "..") := by
  constructor
  · rw [appAliasValue_of_parse s u hp, resolveRelative_relLibSrc]
    exact fileURLToPath_ok _ hs hh
  · intro seg hseg
    rcases List.mem_append.1 hseg with h | h
    · obtain ⟨raw, hraw⟩ := parseUrl_segments_normalized s u hp
      refine goodSeg_ne_dotdot seg (normalizeSegs_good raw seg ?_)
      rw [hraw] at h
      exact mem_of_mem_dropLast (mem_of_mem_dropLast h)
    · rcases List.mem_cons.1 h with rfl | h
      · decide
      · rcases List.mem_cons.1 h with rfl | h
        · decide
        · exact absurd h (List.not_mem_nil _)

/-- C8 witness: the theorem instantiated at a concrete module location. -/
theorem c8_witness :
    appAliasValue "file:///repo/packages/app/vite.config.ts" =
      .ok (pathOfSegments ((Url.mk "file" "" ["repo", "packages", "app", "vite.config.ts"]).segments.dropLast.dropLast ++ ["lib", "src"])) ∧
    (∀ seg ∈ (Url.mk "file" "" ["repo", "packages", "app", "vite.config.ts"]).segments.dropLast.dropLast ++ ["lib", "src"], seg ≠ "..") :=
  c8_alias_normalized "file:///repo/packages/app/vite.config.ts"
    (Url.mk "file" "" ["repo", "packages", "app", "vite.config.ts"])
    (by decide) rfl (Or.inl rfl)

/-- C9: a module URL that is not a valid file URL makes the app module
fail — with a URL-construction error on an unparsable base, and with a
URL-to-path conversion error on a non-`file:` scheme — while the library
module never raises under any condition. -/
theorem c9_invalid_url_errors :
    appConfigEval ⟨"http://example.com/packages/app/vite.config.ts", []⟩ =
      .error .schemeNotFile ∧
    appConfigEval ⟨"not a url", []⟩ = .error .invalidURL ∧
    (∀ e : ModuleEnv, libConfigEval e = .ok libViteConfig) :=
  ⟨rfl, rfl, fun _ => rfl⟩
